import Mathlib

/-!
Verification development for the nitro build orchestrator (`src/build.ts`).
The definitions below are a shallow embedding of the orchestration code:
pure string and list computations mirror the TypeScript, stateful parts are
modelled as explicit operation traces, and external collaborators (the
bundling engine, the scanner, the storage source) are parameters.
-/

/-! ## Path helpers (model of the `pathe` library functions used by build.ts) -/

/-- Splits a character list on a separator character, keeping empty segments,
as `String.split` would. Structural recursion keeps it kernel-evaluable. -/
def splitOnChar (c : Char) : List Char → List (List Char)
  | [] => [[]]
  | x :: xs =>
      let rest := splitOnChar c xs
      if x = c then [] :: rest
      else
        match rest with
        | r :: rs => (x :: r) :: rs
        | [] => [[x]]

/-- Segments of a path, split on the separator, empty segments kept. -/
def segsOf (p : String) : List String :=
  (splitOnChar '/' p.data).map String.mk

/-- Non-empty segments of a path. -/
def splitSegs (p : String) : List String :=
  (segsOf p).filter (fun s => s ≠ "")

/-- Model of `pathe.join` for the uses in build.ts: a clean base directory
joined with a clean relative component. -/
def joinP (a b : String) : String := a ++ "/" ++ b

/-- Model of `pathe.resolve(base, seg)` for the uses in build.ts, where the
base (`buildDir`) is an absolute path, so resolve amounts to a join. -/
def resolveP (a b : String) : String := joinP a b

/-- Model of `pathe.dirname`. -/
def dirname (p : String) : String :=
  let segs := segsOf p
  if segs.length ≤ 1 then "."
  else if segs.dropLast.all (fun s => s = "") then "/"
  else String.intercalate "/" segs.dropLast

/-- Drops the shared leading segments of two segment lists. -/
def dropSharedLead : List String → List String → List String × List String
  | a :: as, b :: bs =>
      if a = b then dropSharedLead as bs else (a :: as, b :: bs)
  | as, bs => (as, bs)

/-- Model of `pathe.relative` on POSIX paths: walk up out of the part of
`f` that is not shared with `t`, then down into the rest of `t`. -/
def relativeP (f t : String) : String :=
  let p := dropSharedLead (splitSegs f) (splitSegs t)
  String.intercalate "/" (p.1.map (fun _ => "..") ++ p.2)

/-- Model of `pathe.isAbsolute` (POSIX form of its regex: a leading slash
or backslash; drive letters are not relevant to this development). -/
def isAbsoluteP (p : String) : Bool :=
  match p.data with
  | c :: _ => decide (c = '/' ∨ c = '\\')
  | [] => false

/-! ## JSON values (model of the data returned by the storage collaborator
and of `JSON.stringify`) -/

/-- JSON-like values as produced by the storage snapshot collaborator. -/
inductive JVal where
  | str (s : String)
  | num (n : Int)
  | jbool (b : Bool)
  | jnull
  | arr (xs : List JVal)
  | obj (fields : List (String × JVal))

/-- JSON string escaping for the characters relevant here. -/
def escapeJson (s : String) : String :=
  s.data.foldl
    (fun acc c =>
      acc ++ (if c = '"' then "\\\""
              else if c = '\\' then "\\\\"
              else if c = '\n' then "\\n"
              else String.singleton c)) ""

mutual

/-- Model of `JSON.stringify` (object keys in insertion order, no spacing). -/
def jsonStringify : JVal → String
  | JVal.str s => "\"" ++ escapeJson s ++ "\""
  | JVal.num n => toString n
  | JVal.jbool true => "true"
  | JVal.jbool false => "false"
  | JVal.jnull => "null"
  | JVal.arr xs => "[" ++ String.intercalate "," (jsonStringifyList xs) ++ "]"
  | JVal.obj fs => "\x7b" ++ String.intercalate "," (jsonStringifyFields fs) ++ "\x7d"

/-- Stringifies the elements of a JSON array. -/
def jsonStringifyList : List JVal → List String
  | [] => []
  | x :: xs => jsonStringify x :: jsonStringifyList xs

/-- Stringifies the fields of a JSON object. -/
def jsonStringifyFields : List (String × JVal) → List String
  | [] => []
  | (k, v) :: fs => ("\"" ++ escapeJson k ++ "\":" ++ jsonStringify v) :: jsonStringifyFields fs

end

/-! ## Storage snapshotter (`_snapshot` in build.ts) -/

/-- The fields of `nitro.options` that `_snapshot` reads. -/
structure SnapshotOptions where
  bundledStorage : List String
  preset : String
  buildDir : String
deriving DecidableEq

/-- Observable side effects of `_snapshot`, in program order (the
`Promise.all` write batch is listed in entry order; order among entries is
not significant and no claim depends on it). -/
inductive SnapOp where
  | registerAsset (baseName dir : String)
  | mkdirRec (dir : String)
  | writeFileOp (path contents : String)
deriving DecidableEq

/-- Replaces every colon by a path separator, as `path.replace(/:/g, \x27/\x27)`. -/
def replaceColons (p : String) : String :=
  String.mk (p.data.map (fun c => if c = ':' then '/' else c))

/-- The file contents written for one snapshot entry: the value itself when
it is a string, its JSON serialization otherwise
(`if (typeof contents !== \x27string\x27) contents = JSON.stringify(contents)`). -/
def serializeContents : JVal → String
  | JVal.str s => s
  | v => jsonStringify v

/-- The two filesystem operations `_snapshot` performs for one entry:
`mkdir -p` on the parent directory, then the file write. -/
def snapshotEntryOps (storageDir : String) (entry : String × JVal) : List SnapOp :=
  [SnapOp.mkdirRec (dirname (joinP storageDir (replaceColons entry.1))),
   SnapOp.writeFileOp (joinP storageDir (replaceColons entry.1)) (serializeContents entry.2)]

/-- Model of `_snapshot`: returns the list of performed operations. The
guard mirrors `!nitro.options.bundledStorage.length || nitro.options.preset
=== \x27nitro-prerender\x27`; the asset registration (the push onto
`serverAssets`) precedes all writes. -/
def snapshotOps (opts : SnapshotOptions) (data : List (String × JVal)) : List SnapOp :=
  if opts.bundledStorage.length = 0 ∨ opts.preset = "nitro-prerender" then []
  else
    SnapOp.registerAsset "nitro:bundled" (resolveP opts.buildDir "snapshot") ::
      data.flatMap (snapshotEntryOps (resolveP opts.buildDir "snapshot"))

/-! ## Outer filesystem watcher event filter (`_watch` in build.ts) -/

/-- The event kinds a chokidar `all` listener receives. -/
inductive WatchEvent where
  | add | addDir | change | unlink | unlinkDir
deriving DecidableEq

/-- Model of the `watchReloadEvents` set in `_watch`. -/
def watchReloadEvents : List WatchEvent :=
  [WatchEvent.add, WatchEvent.addDir, WatchEvent.unlink, WatchEvent.unlinkDir]

/-- Whether an outer watcher event triggers the debounced `reload`
(`if (watchReloadEvents.has(event)) reload()`). -/
def triggersReload (e : WatchEvent) : Bool :=
  watchReloadEvents.contains e

/-! ## Handlers and the type manifest writer (`writeTypes` in build.ts) -/

/-- A handler reference: a module path string or an inline function
(`typeof mw.handler !== \x27string\x27`). -/
inductive HandlerRef where
  | path (s : String)
  | inline
deriving DecidableEq

/-- A handler descriptor as consumed by `writeTypes`. `route` is `none`
when the descriptor has no route property; `some ""` models an empty
route string, which is falsy in the `!mw.route` guard. -/
structure Handler where
  handler : HandlerRef
  route : Option String
deriving DecidableEq

/-- Strips a trailing `.` followed by one or more lowercase letters, as the
regex replace `\.[a-z]+$` with the empty string does. -/
def stripExt (s : String) : String :=
  let r := s.data.reverse
  let low := r.takeWhile (fun c => decide (97 ≤ c.toNat ∧ c.toNat ≤ 122))
  if low.isEmpty then s
  else
    match r.drop low.length with
    | '.' :: rest => String.mk rest.reverse
    | _ => s

/-- The type expression `writeTypes` records for one handler path:
`Awaited<ReturnType<typeof import(..relative path..).default>>` with the
path made relative to `buildDir/types` and its extension stripped. -/
def typeExpr (buildDir handlerPath : String) : String :=
  "Awaited<ReturnType<typeof import(\x27" ++
    stripExt (relativeP (joinP buildDir "types") handlerPath) ++
    "\x27).default>>"

/-- Model of `routeTypes[route] = routeTypes[route] || []; push(v)` on a
JavaScript object used as an insertion-ordered map (route keys are
non-index strings, so object key order is insertion order). -/
def insertRoute : List (String × List String) → String → String → List (String × List String)
  | [], k, v => [(k, [v])]
  | (k0, vs) :: rest, k, v =>
      if k0 = k then (k0, vs ++ [v]) :: rest
      else (k0, vs) :: insertRoute rest k v

/-- The `continue` guard of the `writeTypes` loop: a descriptor contributes
exactly when its handler is a string and its route is truthy; the
contribution is the `(route, handler path)` pair. -/
def contributesEntry (mw : Handler) : Option (String × String) :=
  match mw.handler with
  | HandlerRef.path h =>
      match mw.route with
      | some r => if r = "" then none else some (r, h)
      | none => none
  | HandlerRef.inline => none

/-- One iteration of the `writeTypes` loop over the middleware list. -/
def routeTypesStep (buildDir : String) (m : List (String × List String))
    (mw : Handler) : List (String × List String) :=
  match contributesEntry mw with
  | some rh => insertRoute m rh.1 (typeExpr buildDir rh.2)
  | none => m

/-- The `routeTypes` record built by `writeTypes` from the concatenation of
scanned and declared handlers. -/
def routeTypes (buildDir : String) (mws : List Handler) : List (String × List String) :=
  mws.foldl (routeTypesStep buildDir) []

/-- The `lines` array of `writeTypes`; `autoImportedTypes` stands for the
declarations supplied by the external unimport collaborator. -/
def manifestLines (buildDir : String) (mws : List Handler)
    (autoImportedTypes : List String) : List String :=
  ["// Generated by nitro",
   "declare module \x27nitropack\x27 \x7b",
   "  type Awaited<T> = T extends PromiseLike<infer U> ? Awaited<U> : T",
   "  interface InternalApi \x7b"]
  ++ (routeTypes buildDir mws).map
      (fun p => "    \x27" ++ p.1 ++ "\x27: " ++ String.intercalate " | " p.2)
  ++ ["  \x7d", "\x7d"]
  ++ autoImportedTypes
  ++ ["export \x7b\x7d"]

/-- The full manifest text, `lines.join(\x27\n\x27)`. -/
def manifestText (buildDir : String) (mws : List Handler)
    (autoImportedTypes : List String) : String :=
  String.intercalate "\n" (manifestLines buildDir mws autoImportedTypes)

/-- Routes contributed by the handler list, in discovery order, with
duplicates. -/
def contributingRoutes (mws : List Handler) : List String :=
  mws.filterMap (fun mw => (contributesEntry mw).map Prod.fst)

/-- First-occurrence deduplication with an accumulator of already seen keys. -/
def dedupFirstAux (seen : List String) : List String → List String
  | [] => []
  | x :: xs =>
      if x ∈ seen then dedupFirstAux seen xs
      else x :: dedupFirstAux (x :: seen) xs

/-- Keys in first-occurrence order. -/
def dedupFirst (l : List String) : List String := dedupFirstAux [] l

/-- Association lookup on the `routeTypes` map. -/
def lookupRoute : List (String × List String) → String → Option (List String)
  | [], _ => none
  | (k, vs) :: rest, r => if k = r then some vs else lookupRoute rest r

/-- Modelled from the spec (comparison definition for the route-grouping
claim): the type expressions contributed to route `r`, taken from exactly
the descriptors whose handler reference is a module-path string and whose
route is present, non-empty and equal to `r`, in discovery order. -/
def specContributions (buildDir : String) (mws : List Handler) (r : String) : List String :=
  mws.filterMap (fun mw =>
    match mw.handler, mw.route with
    | HandlerRef.path h, some r0 =>
        if r0 ≠ "" ∧ r0 = r then some (typeExpr buildDir h) else none
    | _, _ => none)

/-! ## One-shot build and bundler failure formatting (`_build` in build.ts) -/

/-- A source location as found on rollup error objects. -/
structure Loc where
  line : Nat
  column : Nat
deriving DecidableEq

/-- The fields of a rollup error entry that the formatting loop reads.
`none` models an absent (undefined) property. -/
structure ErrEntry where
  id : Option String
  loc : Option Loc
  location : Option Loc
  text : Option String
  frame : Option String
deriving DecidableEq

/-- A rejected rollup failure value. `isObject` is false when the thrown
value is a primitive, in which case evaluating `\x27errors\x27 in _error`
throws a TypeError; `errors` models the `errors` property when present;
`self` holds the fields of the failure value itself. -/
structure RollupFailure where
  isObject : Bool
  errors : Option (List ErrEntry)
  self : ErrEntry
deriving DecidableEq

/-- JavaScript `a || b` on possibly-undefined strings: the empty string and
undefined are falsy. -/
def orTruthy (a b : Option String) : Option String :=
  match a with
  | some s => if s = "" then b else some s
  | none => b

/-- JavaScript string coercion of a possibly-undefined string value. -/
def jsStr : Option String → String
  | none => "undefined"
  | some s => s

/-- The error list the loop iterates:
`\x27errors\x27 in _error ? _error.errors : [_error]`. -/
def errorsOf (f : RollupFailure) : List ErrEntry :=
  match f.errors with
  | some es => es
  | none => [f.self]

/-- Formats one rollup error as `_build` logs it: the id (falling back to
the failure objects own id), relativized against the working directory when
absolute, a `:line:column` suffix when `loc` or `location` is present, then
the error text or frame on a separate paragraph. -/
def formatError (cwd : String) (topId : Option String) (e : ErrEntry) : String :=
  let idv := jsStr (orTruthy e.id topId)
  let path0 := if isAbsoluteP idv then relativeP cwd idv else idv
  let path1 :=
    match (match e.loc with | some l => some l | none => e.location) with
    | some l => path0 ++ ":" ++ toString l.line ++ ":" ++ toString l.column
    | none => path0
  "Rollup error while processing \x60" ++ path1 ++ "\x60" ++ "\n" ++ "\n" ++
    jsStr (orTruthy e.text e.frame)

/-- The whole formatting block wrapped by `try ... catch \x7b\x7d`:
`none` models the formatting itself throwing (the `in` operator on a
non-object failure), which happens before the first diagnostic is logged. -/
def formatDiagnostics (cwd : String) (f : RollupFailure) : Option (List String) :=
  if f.isObject then some ((errorsOf f).map (formatError cwd f.self.id))
  else none

/-- Observable outcome of `_build` after the rollup invocation resolves:
what was logged by the catch block, which artifacts were written, and
whether the failure was re-raised. -/
structure BuildOutcome where
  logged : List String
  bundleWritten : Bool
  buildInfoWritten : Bool
  hintsPrinted : Bool
  result : Except RollupFailure Unit

/-- Model of `_build` from the rollup invocation on: on failure the catch
handler formats diagnostics (swallowing any formatting exception) and
re-throws the original failure before any write; on success the bundle,
the build info record and the hints are produced. -/
def buildOneShot (cwd : String) (engine : Except RollupFailure Unit) : BuildOutcome :=
  match engine with
  | Except.error f =>
      { logged := (formatDiagnostics cwd f).getD []
        bundleWritten := false
        buildInfoWritten := false
        hintsPrinted := false
        result := Except.error f }
  | Except.ok _ =>
      { logged := []
        bundleWritten := true
        buildInfoWritten := true
        hintsPrinted := true
        result := Except.ok () }

/-! ## Close hook of the watch orchestrator (`_watch` in build.ts) -/

/-- The two close calls the `close` hook makes. -/
inductive CloseOp where
  | closeRollup (h : Nat)
  | closeReloadWatcher
deriving DecidableEq

/-- The JavaScript error raised by calling a method on undefined. -/
def jsTypeError : String := "TypeError"

/-- Model of the `close` hook body: `rollupWatcher.close();
reloadWacher.close()`. The rollup watcher variable is dereferenced without
a guard, so when no bundler-watch session has been started yet
(`rollupWatcher` undefined) the first call throws and the outer watcher is
not closed either. -/
def closeHookRun (rollupWatcher : Option Nat) : Except String (List CloseOp) :=
  match rollupWatcher with
  | none => Except.error jsTypeError
  | some h => Except.ok [CloseOp.closeRollup h, CloseOp.closeReloadWatcher]

/-! ## Rollup configuration across reloads (`build` and `_watch`) -/

/-- The mutable part of the build context that scanning updates. -/
structure NitroCtx where
  scannedHandlers : List Handler
deriving DecidableEq

/-- Configs handed to `startRollupWatcher` across `n` reloads, as the code
does it: the closure of `_watch` captures the `rollupConfig` computed once
in `build`, while `scanHandlers` keeps mutating the context. -/
def watchConfigsGo {α : Type} (cfg : α) (scan : NitroCtx → NitroCtx) :
    NitroCtx → Nat → List α
  | _, 0 => []
  | ctx, n + 1 => cfg :: watchConfigsGo cfg scan (scan ctx) n

/-- Model of `build` in dev mode followed by `n` executions of `reload`:
`const rollupConfig = getRollupConfig(nitro)` runs once, then each reload
re-scans and starts a watcher with that same captured config. -/
def watchConfigs {α : Type} (getCfg : NitroCtx → α) (scan : NitroCtx → NitroCtx)
    (ctx0 : NitroCtx) (n : Nat) : List α :=
  watchConfigsGo (getCfg ctx0) scan ctx0 n

/-- Modelled from the spec (comparison definition for the config claim):
the configuration is re-derived from the current build context on each full
reload, after that reload has re-scanned handlers. -/
def watchConfigsRederived {α : Type} (getCfg : NitroCtx → α)
    (scan : NitroCtx → NitroCtx) : NitroCtx → Nat → List α
  | _, 0 => []
  | ctx, n + 1 =>
      getCfg (scan ctx) :: watchConfigsRederived getCfg scan (scan ctx) n

/-- A concrete config derivation that is sensitive to the scanned handlers. -/
def handlerCountCfg (ctx : NitroCtx) : Nat := ctx.scannedHandlers.length

/-- A concrete scan step that discovers one more handler each time. -/
def scanAddsOne (ctx : NitroCtx) : NitroCtx :=
  ⟨ctx.scannedHandlers ++ [⟨HandlerRef.inline, none⟩]⟩

/-! ## The reload body and watch-session singularity (`_watch`) -/

/-- The primitive steps of one execution of the `reload` closure. -/
inductive ReloadOp where
  | closeWatcher (h : Nat)
  | scanOp
  | startWatcher (h : Nat)
  | writeTypesOp
deriving DecidableEq

/-- The steps one execution of `reload` performs, in program order:
`if (rollupWatcher) await rollupWatcher.close()`, then `scanHandlers`,
then `startRollupWatcher`, then `writeTypes`. -/
def reloadTrace (current : Option Nat) (newH : Nat) : List ReloadOp :=
  (match current with
   | some h => [ReloadOp.closeWatcher h]
   | none => []) ++
  [ReloadOp.scanOp, ReloadOp.startWatcher newH, ReloadOp.writeTypesOp]

/-- Effect of one reload step on the set of open bundler-watch handles. -/
def applyOp (hs : List Nat) : ReloadOp → List Nat
  | ReloadOp.closeWatcher h => hs.filter (fun x => x != h)
  | ReloadOp.startWatcher h => hs ++ [h]
  | ReloadOp.scanOp => hs
  | ReloadOp.writeTypesOp => hs

/-- Open handles after running a list of reload steps. -/
def openAfter (hs : List Nat) (ops : List ReloadOp) : List Nat :=
  ops.foldl applyOp hs

/-! ## Concrete example values used by witnesses -/

/-- Concrete options for the snapshot witness. -/
def exSnapOpts : SnapshotOptions := ⟨["fsMount"], "node-server", "/build"⟩

/-- Concrete snapshot data for the snapshot witness: a string entry and a
structured entry. -/
def exSnapData : List (String × JVal) :=
  [("a:b", JVal.str "hello"), ("c:d", JVal.obj [("x", JVal.num 1)])]

/-- Concrete failure for the build diagnostics witness: a rollup failure
object with one error carrying an absolute id, a location and a text. -/
def exFailure : RollupFailure :=
  { isObject := true
    errors := some [⟨some "/proj/src/a.ts", some ⟨3, 7⟩, none, some "boom", none⟩]
    self := ⟨none, none, none, none, none⟩ }

/-- Concrete primitive failure for the suppression witness. -/
def exPrimitiveFailure : RollupFailure :=
  { isObject := false
    errors := none
    self := ⟨none, none, none, none, none⟩ }

/-! ## Theorems -/

/-- C8: in watch mode, the outer filesystem watcher triggers the debounced
reload exactly for the add, add-directory, remove and remove-directory
events, and never for change events on existing files. -/
theorem watch_reload_event_filter :
    triggersReload WatchEvent.add = true ∧
    triggersReload WatchEvent.addDir = true ∧
    triggersReload WatchEvent.unlink = true ∧
    triggersReload WatchEvent.unlinkDir = true ∧
    triggersReload WatchEvent.change = false := by
  decide

/-- C6: the storage snapshotter performs no filesystem operation at all
(neither a write nor an asset-source registration) when no bundled storage
mounts are configured or the preset is the static pre-render preset;
otherwise its first operation registers the snapshot directory as an
embedded-asset source and every later operation is a directory creation or
a file write, never a registration. -/
theorem snapshot_skip_or_register (opts : SnapshotOptions) (data : List (String × JVal)) :
    ((opts.bundledStorage = [] ∨ opts.preset = "nitro-prerender") →
        snapshotOps opts data = []) ∧
    (opts.bundledStorage ≠ [] → opts.preset ≠ "nitro-prerender" →
        snapshotOps opts data =
          SnapOp.registerAsset "nitro:bundled" (resolveP opts.buildDir "snapshot") ::
            data.flatMap (snapshotEntryOps (resolveP opts.buildDir "snapshot")) ∧
        ∀ op ∈ data.flatMap (snapshotEntryOps (resolveP opts.buildDir "snapshot")),
          match op with
          | SnapOp.registerAsset _ _ => False
          | _ => True) := by
  constructor
  · intro h
    rcases h with h | h
    · simp [snapshotOps, h]
    · simp [snapshotOps, h]
  · intro hs hp
    have hlen : ¬ opts.bundledStorage.length = 0 := by
      simpa [List.length_eq_zero] using hs
    constructor
    · simp [snapshotOps, hlen, hp]
    · intro op hop
      rcases List.mem_flatMap.mp hop with ⟨entry, _, hin⟩
      simp only [snapshotEntryOps, List.mem_cons, List.mem_singleton] at hin
      rcases hin with h1 | h1 | h1
      · subst h1; trivial
      · subst h1; trivial
      · exact absurd h1 (List.not_mem_nil op)

/-- Witness for the snapshot skip/register theorem at two concrete inputs:
the prerender preset yields no operations, and a configured non-prerender
setup registers the asset source first. -/
theorem snapshot_skip_or_register_witness :
    snapshotOps ⟨["m"], "nitro-prerender", "/b"⟩ [("a:b", JVal.str "hello")] = [] ∧
    snapshotOps ⟨["m"], "node-server", "/b"⟩ [("a:b", JVal.str "hello")] =
      SnapOp.registerAsset "nitro:bundled" "/b/snapshot" ::
        [("a:b", JVal.str "hello")].flatMap (snapshotEntryOps "/b/snapshot") :=
  ⟨(snapshot_skip_or_register ⟨["m"], "nitro-prerender", "/b"⟩ _).1 (Or.inr rfl),
   ((snapshot_skip_or_register ⟨["m"], "node-server", "/b"⟩ _).2
      (by decide) (by decide)).1⟩

/-- C7: for every entry of the storage snapshot mapping, the snapshotter
writes a file at the snapshot directory joined with the key after replacing
every colon by a path separator, whose contents are the value itself for a
string value and its JSON serialization otherwise, and it creates the
parent directory recursively. -/
theorem snapshot_entry_files (opts : SnapshotOptions) (data : List (String × JVal))
    (k : String) (v : JVal)
    (hs : opts.bundledStorage ≠ []) (hp : opts.preset ≠ "nitro-prerender")
    (hmem : (k, v) ∈ data) :
    SnapOp.writeFileOp (joinP (resolveP opts.buildDir "snapshot") (replaceColons k))
        (serializeContents v) ∈ snapshotOps opts data ∧
    SnapOp.mkdirRec (dirname (joinP (resolveP opts.buildDir "snapshot") (replaceColons k)))
        ∈ snapshotOps opts data := by
  have hlen : ¬ opts.bundledStorage.length = 0 := by
    simpa [List.length_eq_zero] using hs
  have hops : snapshotOps opts data =
      SnapOp.registerAsset "nitro:bundled" (resolveP opts.buildDir "snapshot") ::
        data.flatMap (snapshotEntryOps (resolveP opts.buildDir "snapshot")) := by
    simp [snapshotOps, hlen, hp]
  rw [hops]
  constructor
  · exact List.mem_cons_of_mem _ (List.mem_flatMap.mpr
      ⟨(k, v), hmem, by simp [snapshotEntryOps]⟩)
  · exact List.mem_cons_of_mem _ (List.mem_flatMap.mpr
      ⟨(k, v), hmem, by simp [snapshotEntryOps]⟩)

/-- Witness for the snapshot entry theorem: the structured entry `c:d` of
the example data is written at `/build/snapshot/c/d` with its JSON
serialization, and the parent directory is created. -/
theorem snapshot_entry_files_witness :
    joinP (resolveP exSnapOpts.buildDir "snapshot") (replaceColons "c:d") =
        "/build/snapshot/c/d" ∧
    serializeContents (JVal.obj [("x", JVal.num 1)]) = "\x7b\"x\":1\x7d" ∧
    (SnapOp.writeFileOp "/build/snapshot/c/d" "\x7b\"x\":1\x7d"
        ∈ snapshotOps exSnapOpts exSnapData ∧
      SnapOp.mkdirRec "/build/snapshot/c" ∈ snapshotOps exSnapOpts exSnapData) :=
  ⟨rfl, rfl,
    snapshot_entry_files exSnapOpts exSnapData "c:d" (JVal.obj [("x", JVal.num 1)])
      (by decide) (by decide)
      (List.Mem.tail _ (List.Mem.head _))⟩

/-- C4: when the one-shot rollup invocation fails, one diagnostic per
underlying error is logged (formatted with the relativized id, the
location suffix and the text or frame), the original failure is re-raised,
and no bundle, build-info record or hints are produced. -/
theorem build_failure_diagnostics (cwd : String) (f : RollupFailure)
    (h : f.isObject = true) :
    (buildOneShot cwd (Except.error f)).logged =
        (errorsOf f).map (formatError cwd f.self.id) ∧
    (buildOneShot cwd (Except.error f)).result = Except.error f ∧
    (buildOneShot cwd (Except.error f)).bundleWritten = false ∧
    (buildOneShot cwd (Except.error f)).buildInfoWritten = false ∧
    (buildOneShot cwd (Except.error f)).hintsPrinted = false := by
  simp [buildOneShot, formatDiagnostics, h]

/-- Witness for the build diagnostics theorem: at the example failure the
logged diagnostic relativizes the id, appends the location, prints the
text, and the failure is re-raised with nothing written. -/
theorem build_failure_diagnostics_witness :
    exFailure.isObject = true ∧
    ((buildOneShot "/proj" (Except.error exFailure)).logged =
        ["Rollup error while processing \x60src/a.ts:3:7\x60" ++ "\n" ++ "\n" ++ "boom"] ∧
      (buildOneShot "/proj" (Except.error exFailure)).result = Except.error exFailure ∧
      (buildOneShot "/proj" (Except.error exFailure)).bundleWritten = false ∧
      (buildOneShot "/proj" (Except.error exFailure)).buildInfoWritten = false ∧
      (buildOneShot "/proj" (Except.error exFailure)).hintsPrinted = false) :=
  ⟨rfl, build_failure_diagnostics "/proj" exFailure rfl⟩

/-- C10: when the diagnostic-formatting block itself throws (here: the
failure value is not an object, so the `in` probe raises before anything is
logged), the exception is swallowed by the empty catch block and the
original failure is still re-raised unchanged. -/
theorem build_format_failure_suppressed (cwd : String) (f : RollupFailure)
    (h : f.isObject = false) :
    (buildOneShot cwd (Except.error f)).logged = [] ∧
    (buildOneShot cwd (Except.error f)).result = Except.error f := by
  simp [buildOneShot, formatDiagnostics, h]

/-- Witness for the formatting-suppression theorem: a primitive rejection
logs nothing and is re-raised as is. -/
theorem build_format_failure_suppressed_witness :
    exPrimitiveFailure.isObject = false ∧
    ((buildOneShot "/proj" (Except.error exPrimitiveFailure)).logged = [] ∧
      (buildOneShot "/proj" (Except.error exPrimitiveFailure)).result =
        Except.error exPrimitiveFailure) :=
  ⟨rfl, build_format_failure_suppressed "/proj" exPrimitiveFailure rfl⟩

/-- C2 counterexample: invoking the close hook while no bundler-watch
session is active (the rollup watcher variable still undefined, as before
the initial reload has completed) throws a TypeError instead of succeeding,
so the hook is not safe to invoke without an active session. -/
theorem closeHook_before_session_cx :
    closeHookRun none = Except.error jsTypeError := rfl

/-- C2 amended: when a bundler-watch session is active the close hook
closes both the bundler-watch handle and the outer filesystem watcher (and,
since the handle variable is never cleared, a repeated invocation performs
the same close calls again rather than raising); when no session has been
started yet, the hook throws a TypeError. -/
theorem closeHook_amended (rw : Option Nat) :
    (rw = none → closeHookRun rw = Except.error jsTypeError) ∧
    (∀ h, rw = some h →
        closeHookRun rw =
          Except.ok [CloseOp.closeRollup h, CloseOp.closeReloadWatcher]) := by
  cases rw with
  | none => exact ⟨fun _ => rfl, fun h hc => by cases hc⟩
  | some x =>
      refine ⟨(fun hc => by cases hc), ?_⟩
      intro h hc
      cases hc
      rfl

/-- Witness for the amended close-hook theorem at a concrete active
session handle. -/
theorem closeHook_amended_witness :
    closeHookRun (some 7) =
      Except.ok [CloseOp.closeRollup 7, CloseOp.closeReloadWatcher] :=
  (closeHook_amended (some 7)).2 7 rfl

/-- C1 counterexample: with a configuration derivation that depends on the
scanned handlers and a scan step that discovers one handler per reload, the
configurations the code passes to successive bundler-watch sessions differ
from what re-deriving the configuration from the current build context at
each reload would produce; the code keeps passing the value captured at
session start. -/
theorem rollupConfig_rederive_cx :
    watchConfigs handlerCountCfg scanAddsOne ⟨[]⟩ 2 = [0, 0] ∧
    watchConfigsRederived handlerCountCfg scanAddsOne ⟨[]⟩ 2 = [1, 2] ∧
    watchConfigs handlerCountCfg scanAddsOne ⟨[]⟩ 2 ≠
      watchConfigsRederived handlerCountCfg scanAddsOne ⟨[]⟩ 2 := by
  decide

/-- C1 amended: in watch mode the bundler configuration passed to every new
bundler-watch session is the single value derived from the build context
once, at session start in `build`; it is reused unchanged across all full
reloads, however the context evolves. -/
theorem rollupConfig_constructed_once {α : Type} (getCfg : NitroCtx → α)
    (scan : NitroCtx → NitroCtx) (ctx0 : NitroCtx) (n : Nat) :
    watchConfigs getCfg scan ctx0 n = List.replicate n (getCfg ctx0) := by
  unfold watchConfigs
  generalize getCfg ctx0 = cfg
  induction n generalizing ctx0 with
  | zero => rfl
  | succ n ih => simp [watchConfigsGo, List.replicate_succ, ih]

/-- C5: one execution of the reload closure performs, in program order, a
close of the previous bundler-watch handle when one exists, the handler
re-scan, the start of the new bundler-watch session and the type-manifest
rewrite; along every prefix of that execution at most one bundler-watch
handle is open, and at its end exactly the new handle is open. -/
theorem reload_order_singularity (cur : Option Nat) (nh : Nat) :
    reloadTrace cur nh =
      (match cur with
       | some h => [ReloadOp.closeWatcher h]
       | none => []) ++
        [ReloadOp.scanOp, ReloadOp.startWatcher nh, ReloadOp.writeTypesOp] ∧
    openAfter cur.toList (reloadTrace cur nh) = [nh] ∧
    ∀ i, (openAfter cur.toList ((reloadTrace cur nh).take i)).length ≤ 1 := by
  refine ⟨rfl, ?_, ?_⟩
  · cases cur <;> simp [reloadTrace, openAfter, applyOp]
  · intro i
    cases cur with
    | none =>
        rcases i with _ | _ | _ | i <;>
          simp [reloadTrace, openAfter, applyOp, List.take]
    | some h =>
        rcases i with _ | _ | _ | _ | i <;>
          simp [reloadTrace, openAfter, applyOp, List.take]

/-- Keys of the route map after a JS-object style insert: unchanged when the
route is already present, appended at the end otherwise. -/
theorem keys_insertRoute (m : List (String × List String)) (k v : String) :
    (insertRoute m k v).map Prod.fst =
      if k ∈ m.map Prod.fst then m.map Prod.fst
      else m.map Prod.fst ++ [k] := by
  induction m with
  | nil => simp [insertRoute]
  | cons p rest ih =>
      obtain ⟨k0, vs⟩ := p
      by_cases hk : k0 = k
      · subst hk
        simp [insertRoute]
      · have hk2 : ¬ k = k0 := fun hc => hk hc.symm
        simp [insertRoute, hk, hk2, ih]
        by_cases hin : k ∈ rest.map Prod.fst <;> simp [hin, hk2]

/-- First-occurrence deduplication only depends on the membership of the
seen accumulator. -/
theorem dedupFirstAux_congr (s1 s2 l : List String)
    (h : ∀ x, x ∈ s1 ↔ x ∈ s2) : dedupFirstAux s1 l = dedupFirstAux s2 l := by
  induction l generalizing s1 s2 with
  | nil => rfl
  | cons x xs ih =>
      by_cases hx : x ∈ s1
      · have hx2 : x ∈ s2 := (h x).mp hx
        simp [dedupFirstAux, hx, hx2]
        exact ih s1 s2 h
      · have hx2 : x ∉ s2 := fun c => hx ((h x).mpr c)
        simp [dedupFirstAux, hx, hx2]
        exact ih _ _ (fun y => by simp [List.mem_cons, h y])

/-- The contributing routes of a cons, by the head contribution. -/
theorem contributingRoutes_cons (mw : Handler) (mws : List Handler) :
    contributingRoutes (mw :: mws) =
      (match contributesEntry mw with
       | some rh => rh.1 :: contributingRoutes mws
       | none => contributingRoutes mws) := by
  cases h : contributesEntry mw <;>
    simp [contributingRoutes, List.filterMap_cons, h]

/-- Keys accumulated by the `writeTypes` fold: the starting keys followed by
the contributing routes deduplicated to their first occurrences. -/
theorem keys_routeTypes_go (buildDir : String) (mws : List Handler)
    (m : List (String × List String)) :
    (mws.foldl (routeTypesStep buildDir) m).map Prod.fst =
      m.map Prod.fst ++ dedupFirstAux (m.map Prod.fst) (contributingRoutes mws) := by
  induction mws generalizing m with
  | nil => simp [contributingRoutes, dedupFirstAux]
  | cons mw mws ih =>
      rw [List.foldl_cons]
      cases hce : contributesEntry mw with
      | none =>
          rw [contributingRoutes_cons]
          simp only [hce]
          simpa [routeTypesStep, hce] using ih m
      | some rh =>
          rw [contributingRoutes_cons]
          simp only [hce]
          have hstep : routeTypesStep buildDir m mw =
              insertRoute m rh.1 (typeExpr buildDir rh.2) := by
            simp [routeTypesStep, hce]
          rw [hstep, ih]
          rw [keys_insertRoute]
          by_cases hin : rh.1 ∈ m.map Prod.fst
          · simp [hin, dedupFirstAux]
          · simp only [hin, if_neg, if_false, dedupFirstAux]
            rw [List.append_assoc]
            simp [dedupFirstAux, hin]
            exact dedupFirstAux_congr _ _ _ (fun y => by simp [List.mem_append, List.mem_cons, or_comm])

/-- C3: for a fixed handler list and build context the type-manifest writer
emits byte-identical text on successive runs (it is a pure function of its
inputs), and the route-to-type lines appear in handler discovery order
(the first-occurrence order of the contributing routes), not re-sorted. -/
theorem writeTypes_deterministic_ordered (buildDir : String) (mws : List Handler)
    (autoImportedTypes : List String) :
    manifestText buildDir mws autoImportedTypes =
      manifestText buildDir mws autoImportedTypes ∧
    (routeTypes buildDir mws).map Prod.fst = dedupFirst (contributingRoutes mws) := by
  refine ⟨rfl, ?_⟩
  have h := keys_routeTypes_go buildDir mws []
  simpa [routeTypes, dedupFirst] using h

/-- Lookup after a JS-object style insert: the inserted value is appended to
the looked-up route when it matches, other routes are untouched. -/
theorem lookupRoute_insertRoute (m : List (String × List String)) (k v r : String) :
    lookupRoute (insertRoute m k v) r =
      if k = r then some (((lookupRoute m r).getD []) ++ [v])
      else lookupRoute m r := by
  induction m with
  | nil =>
      by_cases h : k = r <;> simp [insertRoute, lookupRoute, h]
  | cons p rest ih =>
      obtain ⟨k0, vs⟩ := p
      by_cases h0 : k0 = k
      · subst h0
        by_cases hr : k0 = r
        · subst hr
          simp [insertRoute, lookupRoute]
        · simp [insertRoute, lookupRoute, hr]
      · by_cases hr : k0 = r
        · subst hr
          have hkr : ¬ k = k0 := fun hc => h0 hc.symm
          simp [insertRoute, lookupRoute, h0, hkr]
        · simp [insertRoute, lookupRoute, h0, hr, ih]

/-- The spec-side contributions of a cons, by the head contribution. -/
theorem specContributions_cons (buildDir : String) (mw : Handler)
    (mws : List Handler) (r : String) :
    specContributions buildDir (mw :: mws) r =
      (match contributesEntry mw with
       | some rh => if rh.1 = r then [typeExpr buildDir rh.2] else []
       | none => []) ++ specContributions buildDir mws r := by
  obtain ⟨href, route⟩ := mw
  cases href with
  | inline => simp [specContributions, contributesEntry, List.filterMap_cons]
  | path h =>
      cases route with
      | none => simp [specContributions, contributesEntry, List.filterMap_cons]
      | some r0 =>
          by_cases he : r0 = ""
          · simp [specContributions, contributesEntry, List.filterMap_cons, he]
          · by_cases hr : r0 = r
            · subst hr
              simp [specContributions, contributesEntry, List.filterMap_cons, he]
            · simp [specContributions, contributesEntry, List.filterMap_cons, he, hr]

/-- Lookup on the map accumulated by the `writeTypes` fold: the starting
value for the route extended by the contributions of the handler list, with
a route absent iff it was absent initially and receives no contribution. -/
theorem lookupRoute_routeTypes_go (buildDir : String) (mws : List Handler)
    (m : List (String × List String)) (r : String) :
    lookupRoute (mws.foldl (routeTypesStep buildDir) m) r =
      (match lookupRoute m r with
       | some vs => some (vs ++ specContributions buildDir mws r)
       | none =>
           if specContributions buildDir mws r = [] then none
           else some (specContributions buildDir mws r)) := by
  induction mws generalizing m with
  | nil =>
      cases h : lookupRoute m r <;> simp [specContributions, h]
  | cons mw mws ih =>
      rw [List.foldl_cons, specContributions_cons]
      cases hce : contributesEntry mw with
      | none =>
          simp only
          have hstep : routeTypesStep buildDir m mw = m := by
            simp [routeTypesStep, hce]
          rw [hstep, ih]
          simp
      | some rh =>
          simp only
          have hstep : routeTypesStep buildDir m mw =
              insertRoute m rh.1 (typeExpr buildDir rh.2) := by
            simp [routeTypesStep, hce]
          rw [hstep, ih, lookupRoute_insertRoute]
          by_cases hr : rh.1 = r
          · subst hr
            simp only [if_pos rfl]
            cases h : lookupRoute m rh.1 with
            | some vs => simp [h, List.append_assoc]
            | none => simp [h]
          · simp only [if_neg hr]
            simp [hr]

/-- C9: a handler descriptor contributes an entry to the type manifest iff
its handler reference is a module-path string and its route is present and
non-empty; a route groups the type expressions of all its contributing
handlers, joined in discovery order, and a route with no contributing
handler has no entry. -/
theorem writeTypes_route_grouping (buildDir : String) (mws : List Handler) (r : String) :
    lookupRoute (routeTypes buildDir mws) r =
      (if specContributions buildDir mws r = [] then none
       else some (specContributions buildDir mws r)) := by
  have h := lookupRoute_routeTypes_go buildDir mws [] r
  simpa [routeTypes, lookupRoute] using h
